import Mathlib

/-!
Verification of the bin-parameter resolver and correlation-object scaffold of
TreeCorr (src/treecorr/binnedcorr2.py), shallowly embedded in Lean 4.

The configuration dict is embedded as a structure of optional fields (`none` /
`false` model an absent key), `BinnedCorr2.__init__` as a function into
`Except PyError BinnedCorr2` making each Python runtime exception explicit in
evaluation order, and the six derived correlation classes as wrappers that pick
the result container dtype.  Python floats are modelled as real numbers.
-/

set_option linter.unusedVariables false

namespace TreeCorr

/-- A Python exception observable at the boundary of the constructors.
`attributeError` is the configuration-error kind raised for a missing or
over-constrained parameter set (the spec's ConfigurationError); the remaining
constructors model exceptions of the Python runtime itself. -/
inductive PyError where
  | attributeError (msg : String)
  | keyError (key : String)
  | nameError (missing : String)
  | valueError (msg : String)
  | zeroDivisionError
deriving DecidableEq

/-- Modelled from the spec: `treecorr.config.setup_logger` (its code is not under
src/) builds a logger from the configuration entries `verbose` and `log_file`; a
caller may instead hand in an already-built logger object.  Only the logger's
identity matters to this model. -/
inductive Logger where
  | setup (verbose : ℤ) (log_file : Option String)
  | fromCaller (id : ℕ)
deriving DecidableEq

/-- The merged configuration dict.  `none` (and `false` for the pure presence
markers `x_col`, `y_col`) model absence of the key. -/
structure Config where
  nbins : Option ℤ := none
  bin_size : Option ℝ := none
  min_sep : Option ℝ := none
  max_sep : Option ℝ := none
  sep_units : Option String := none
  x_col : Bool := false
  y_col : Bool := false
  bin_slop : Option ℝ := none
  verbose : Option ℤ := none
  log_file : Option String := none

/-- Shallow embedding of the kwargs merge of lines 56-59 (`config.update(kwargs)`):
an override replaces the same-named entry, the mapping is otherwise kept. -/
def Config.updated (base kw : Config) : Config where
  nbins := kw.nbins <|> base.nbins
  bin_size := kw.bin_size <|> base.bin_size
  min_sep := kw.min_sep <|> base.min_sep
  max_sep := kw.max_sep <|> base.max_sep
  sep_units := kw.sep_units <|> base.sep_units
  x_col := base.x_col || kw.x_col
  y_col := base.y_col || kw.y_col
  bin_slop := kw.bin_slop <|> base.bin_slop
  verbose := kw.verbose <|> base.verbose
  log_file := kw.log_file <|> base.log_file

/-- Modelled from the spec: `treecorr.angle_units` (its code is not under src/)
maps the fixed enumerated unit names to radians-per-unit conversion factors. -/
noncomputable def angle_units (s : String) : Option ℝ :=
  if s = "radians" then some 1
  else if s = "degrees" then some (Real.pi / 180)
  else if s = "arcmin" then some (Real.pi / 180 / 60)
  else if s = "arcsec" then some (Real.pi / 180 / 3600)
  else none

/-- The attributes `BinnedCorr2.__init__` resolves: the binning quadruple in
canonical units, the `bin_slop` tolerance, the stored configuration and logger. -/
structure BinnedCorr2 where
  config : Config
  logger : Logger
  min_sep : ℝ
  max_sep : ℝ
  bin_size : ℝ
  nbins : ℤ
  bin_slop : ℝ

/-- Shallow embedding of `BinnedCorr2.__init__` (lines 54-109) applied to the
already-merged configuration.  Exceptions of the Python runtime are made
explicit in Python evaluation order: division by zero raises
`ZeroDivisionError`, `math.log` on a non-positive argument raises `ValueError`,
and lines 98/105 name the unbound `exp` (only `math` is imported), which raises
`NameError` before any arithmetic of those branches. -/
noncomputable def BinnedCorr2.init (config : Config) (logger : Option Logger) :
    Except PyError BinnedCorr2 :=
  let log : Logger :=
    match logger with
    | none => Logger.setup (config.verbose.getD 0) config.log_file
    | some l => l
  if config.x_col = false ∧ config.sep_units = none then
    Except.error (PyError.attributeError "sep_units is required if not using x_col,y_col")
  else
    match angle_units (config.sep_units.getD "arcsec") with
    | none => Except.error (PyError.keyError (config.sep_units.getD "arcsec"))
    | some u =>
      match config.nbins with
      | none =>
        match config.max_sep with
        | none => Except.error (PyError.attributeError "Missing required parameter max_sep")
        | some M =>
          match config.min_sep with
          | none => Except.error (PyError.attributeError "Missing required parameter min_sep")
          | some m =>
            match config.bin_size with
            | none => Except.error (PyError.attributeError "Missing required parameter bin_size")
            | some b =>
              if m * u = 0 then Except.error PyError.zeroDivisionError
              else if M * u / (m * u) ≤ 0 then
                Except.error (PyError.valueError "math domain error")
              else if b = 0 then Except.error PyError.zeroDivisionError
              else
                Except.ok
                  { config := config, logger := log,
                    min_sep := m * u, max_sep := M * u, bin_size := b,
                    nbins := ⌈Real.log (M * u / (m * u)) / b⌉,
                    bin_slop := config.bin_slop.getD 1 }
      | some n =>
        match config.bin_size with
        | none =>
          match config.max_sep with
          | none => Except.error (PyError.attributeError "Missing required parameter max_sep")
          | some M =>
            match config.min_sep with
            | none => Except.error (PyError.attributeError "Missing required parameter min_sep")
            | some m =>
              if m * u = 0 then Except.error PyError.zeroDivisionError
              else if M * u / (m * u) ≤ 0 then
                Except.error (PyError.valueError "math domain error")
              else if n = 0 then Except.error PyError.zeroDivisionError
              else
                Except.ok
                  { config := config, logger := log,
                    min_sep := m * u, max_sep := M * u,
                    bin_size := Real.log (M * u / (m * u)) / (n : ℝ),
                    nbins := n, bin_slop := config.bin_slop.getD 1 }
        | some b =>
          match config.max_sep with
          | none =>
            match config.min_sep with
            | none => Except.error (PyError.attributeError "Missing required parameter min_sep")
            | some m => Except.error (PyError.nameError "exp")
          | some M =>
            match config.min_sep with
            | some m =>
              Except.error (PyError.attributeError
                "Only 3 of min_sep, max_sep, bin_size, nbins are allowed.")
            | none => Except.error (PyError.nameError "exp")

/-- The result container dtypes appearing in the derived constructors. -/
inductive Dtype where
  | float
  | complex
deriving DecidableEq

/-- Shallow embedding of `numpy.zeros(n, dtype)`: a length-`n` all-zero cell
vector.  numpy raises `ValueError` on a negative dimension.  Real cells are
modelled inside ℂ; the per-class dtype is recorded separately. -/
noncomputable def npZeros (n : ℤ) : Except PyError (List ℂ) :=
  if n < 0 then Except.error (PyError.valueError "negative dimensions are not allowed")
  else Except.ok (List.replicate n.toNat 0)

/-- A derived correlation object: the base attributes plus the result container
`data` and its dtype. -/
structure Corr2 extends BinnedCorr2 where
  dtype : Dtype
  data : List ℂ

/-- The shared body of the six derived constructors (lines 121-125 and their
copies): call `BinnedCorr2.__init__` with `logger=None`, then
`self.data = numpy.zeros(self.nbins, dtype)`. -/
noncomputable def derivedInit (dt : Dtype) (config : Config) (logger : Option Logger) :
    Except PyError Corr2 :=
  match BinnedCorr2.init config none with
  | Except.error e => Except.error e
  | Except.ok base =>
    match npZeros base.nbins with
    | Except.error e => Except.error e
    | Except.ok d => Except.ok { toBinnedCorr2 := base, dtype := dt, data := d }

/-- `G2Correlation.__init__` (lines 121-125): complex container. -/
noncomputable def G2Correlation.init (config : Config) (logger : Option Logger) :
    Except PyError Corr2 :=
  derivedInit Dtype.complex config logger

/-- `N2Correlation.__init__` (lines 140-144): real container. -/
noncomputable def N2Correlation.init (config : Config) (logger : Option Logger) :
    Except PyError Corr2 :=
  derivedInit Dtype.float config logger

/-- `K2Correlation.__init__` (lines 157-161): real container. -/
noncomputable def K2Correlation.init (config : Config) (logger : Option Logger) :
    Except PyError Corr2 :=
  derivedInit Dtype.float config logger

/-- `NGCorrelation.__init__` (lines 174-178): complex container. -/
noncomputable def NGCorrelation.init (config : Config) (logger : Option Logger) :
    Except PyError Corr2 :=
  derivedInit Dtype.complex config logger

/-- `NKCorrelation.__init__` (lines 197-201): real container. -/
noncomputable def NKCorrelation.init (config : Config) (logger : Option Logger) :
    Except PyError Corr2 :=
  derivedInit Dtype.float config logger

/-- `KGCorrelation.__init__` (lines 214-218): complex container. -/
noncomputable def KGCorrelation.init (config : Config) (logger : Option Logger) :
    Except PyError Corr2 :=
  derivedInit Dtype.complex config logger

/-- Shallow embedding of `BinnedCorr2.clear` (lines 111-114): `self.data[:] = 0`
sets every cell to zero in place, keeping the container length. -/
def Corr2.clear (self : Corr2) : Corr2 :=
  { self with data := List.replicate self.data.length 0 }

/-- An opaque catalog collaborator: the stub methods never read its contents. -/
structure Catalog where
  id : ℕ

/-- `G2Correlation.process` (lines 127-128): logs and returns; the state is the
first component, the emitted log record the second. -/
def G2Correlation.process (self : Corr2) (cat1 : Catalog) (cat2 : Option Catalog) :
    Corr2 × String :=
  (self, "Process G2 correlations...  or not.")

/-- `G2Correlation.write` (lines 130-131). -/
def G2Correlation.write (self : Corr2) (file_name : String) : Corr2 × String :=
  (self, "Writing G2 correlations to " ++ file_name)

/-- `G2Correlation.writeM2` (lines 133-134). -/
def G2Correlation.writeM2 (self : Corr2) (file_name : String) : Corr2 × String :=
  (self, "Writing Map^2 from G2 correlations to " ++ file_name)

/-- `N2Correlation.process` (lines 146-147). -/
def N2Correlation.process (self : Corr2) (cat1 : Catalog) (cat2 : Option Catalog) :
    Corr2 × String :=
  (self, "Process N2 correlations...  or not.")

/-- `N2Correlation.write` (lines 149-150). -/
def N2Correlation.write (self : Corr2) (file_name : String) (rr : Corr2)
    (dr rd : Option Corr2) : Corr2 × String :=
  (self, "Writing N2 correlations to " ++ file_name)

/-- `K2Correlation.process` (lines 163-164). -/
def K2Correlation.process (self : Corr2) (cat1 : Catalog) (cat2 : Option Catalog) :
    Corr2 × String :=
  (self, "Process K2 correlations...  or not.")

/-- `K2Correlation.write` (lines 166-167). -/
def K2Correlation.write (self : Corr2) (file_name : String) : Corr2 × String :=
  (self, "Writing K2 correlations to " ++ file_name)

/-- `NGCorrelation.process` (lines 180-181): the second catalog is required. -/
def NGCorrelation.process (self : Corr2) (cat1 cat2 : Catalog) : Corr2 × String :=
  (self, "Process NG correlations...  or not.")

/-- `NGCorrelation.write` (lines 183-184). -/
def NGCorrelation.write (self : Corr2) (file_name : String) (rg : Option Corr2) :
    Corr2 × String :=
  (self, "Writing NG correlations to " ++ file_name)

/-- `NGCorrelation.writeNM` (lines 186-187). -/
def NGCorrelation.writeNM (self : Corr2) (file_name : String) (rg : Option Corr2) :
    Corr2 × String :=
  (self, "Writing NMap from NG correlations to " ++ file_name)

/-- `NGCorrelation.writeNorm` (lines 189-190). -/
def NGCorrelation.writeNorm (self : Corr2) (file_name : String) (gg nn rr : Corr2)
    (nr rg : Option Corr2) : Corr2 × String :=
  (self, "Writing Norm from NG correlations to " ++ file_name)

/-- `NKCorrelation.process` (lines 203-204). -/
def NKCorrelation.process (self : Corr2) (cat1 cat2 : Catalog) : Corr2 × String :=
  (self, "Process NK correlations...  or not.")

/-- `NKCorrelation.write` (lines 206-207). -/
def NKCorrelation.write (self : Corr2) (file_name : String) (rk : Option Corr2) :
    Corr2 × String :=
  (self, "Writing NK correlations to " ++ file_name)

/-- `KGCorrelation.process` (lines 220-221). -/
def KGCorrelation.process (self : Corr2) (cat1 cat2 : Catalog) : Corr2 × String :=
  (self, "Process KG correlations...  or not.")

/-- `KGCorrelation.write` (lines 223-224). -/
def KGCorrelation.write (self : Corr2) (file_name : String) : Corr2 × String :=
  (self, "Writing KG correlations to " ++ file_name)

/-- How many of the four binning keys are present in the merged configuration. -/
def Config.presentCount (c : Config) : ℕ :=
  (if c.nbins.isSome then 1 else 0) + (if c.bin_size.isSome then 1 else 0) +
    (if c.min_sep.isSome then 1 else 0) + (if c.max_sep.isSome then 1 else 0)

/-- The result is the configuration-error kind (`AttributeError` in the code,
the spec's ConfigurationError). -/
def isConfigError (r : Except PyError BinnedCorr2) : Prop :=
  ∃ msg, r = Except.error (PyError.attributeError msg)

/-- `k` names one of the three checked binning keys and that key is absent. -/
def Config.missingKey (c : Config) (k : String) : Prop :=
  (k = "min_sep" ∧ c.min_sep = none) ∨ (k = "max_sep" ∧ c.max_sep = none) ∨
    (k = "bin_size" ∧ c.bin_size = none)

/-- The unit precondition: the `x_col`/`sep_units` gate passes and the effective
unit name resolves in `angle_units`. -/
def unitOK (c : Config) : Prop :=
  (c.x_col = true ∨ c.sep_units ≠ none) ∧ (angle_units (c.sep_units.getD "arcsec")).isSome

theorem angle_units_radians : angle_units "radians" = some 1 := by
  simp [angle_units]

/-- C7: `clear()` zeroes every cell of the result container, keeps its length,
and leaves the resolved binning fields `min_sep`, `max_sep`, `bin_size`,
`nbins`, `bin_slop` unchanged. -/
theorem clear_zeroes_data_preserves_binning (s : Corr2) :
    s.clear.data.length = s.data.length ∧ (∀ x ∈ s.clear.data, x = 0) ∧
    s.clear.toBinnedCorr2 = s.toBinnedCorr2 ∧
    s.clear.min_sep = s.min_sep ∧ s.clear.max_sep = s.max_sep ∧
    s.clear.bin_size = s.bin_size ∧ s.clear.nbins = s.nbins ∧
    s.clear.bin_slop = s.bin_slop := by
  refine ⟨?_, ?_, rfl, rfl, rfl, rfl, rfl, rfl⟩
  · simp [Corr2.clear]
  · intro x hx
    exact List.eq_of_mem_replicate hx

/-- C8: every stubbed `process`/`write` operation of the six correlation kinds
returns the state unchanged (the only observable beyond the returned log
record), for all arguments. -/
theorem process_write_are_noops (s rr gg nn : Corr2) (c1 c2 : Catalog)
    (oc : Option Catalog) (fn : String) (dr rd rg rk nr : Option Corr2) :
    (G2Correlation.process s c1 oc).1 = s ∧ (G2Correlation.write s fn).1 = s ∧
    (G2Correlation.writeM2 s fn).1 = s ∧
    (N2Correlation.process s c1 oc).1 = s ∧ (N2Correlation.write s fn rr dr rd).1 = s ∧
    (K2Correlation.process s c1 oc).1 = s ∧ (K2Correlation.write s fn).1 = s ∧
    (NGCorrelation.process s c1 c2).1 = s ∧ (NGCorrelation.write s fn rg).1 = s ∧
    (NGCorrelation.writeNM s fn rg).1 = s ∧
    (NGCorrelation.writeNorm s fn gg nn rr nr rg).1 = s ∧
    (NKCorrelation.process s c1 c2).1 = s ∧ (NKCorrelation.write s fn rk).1 = s ∧
    (KGCorrelation.process s c1 c2).1 = s ∧ (KGCorrelation.write s fn).1 = s :=
  ⟨rfl, rfl, rfl, rfl, rfl, rfl, rfl, rfl, rfl, rfl, rfl, rfl, rfl, rfl, rfl⟩

/-- The triple min_sep, nbins, bin_size: line 98 should compute max_sep. -/
def cfgC4a : Config :=
  { nbins := some 10, bin_size := some 1, min_sep := some 1, sep_units := some "radians" }

/-- The triple max_sep, nbins, bin_size: line 105 should compute min_sep. -/
def cfgC4b : Config :=
  { nbins := some 10, bin_size := some 1, max_sep := some 100, sep_units := some "radians" }

/-- C4: on the two triples that include nbins and bin_size, lines 98/105 name
the unbound `exp` (only `math` is imported), so construction raises `NameError`
instead of computing the missing separation as the class docstring promises. -/
theorem exp_unbound_raises_nameError :
    BinnedCorr2.init cfgC4a none = Except.error (PyError.nameError "exp") ∧
    BinnedCorr2.init cfgC4b none = Except.error (PyError.nameError "exp") := by
  constructor <;> simp [BinnedCorr2.init, cfgC4a, cfgC4b, angle_units_radians]

/-- A configuration whose only coordinate-column marker is `y_col`. -/
def cfgC5 : Config :=
  { nbins := some 10, bin_size := some 1, min_sep := some 1, y_col := true }

/-- C5 counterexample: with `y_col` present but `x_col` and `sep_units` absent,
construction still raises the sep_units configuration error, so a `y_col`
marker alone does not waive the requirement as the claim would have it. -/
theorem yCol_alone_does_not_waive_sep_units :
    BinnedCorr2.init cfgC5 none =
      Except.error (PyError.attributeError "sep_units is required if not using x_col,y_col") := by
  simp [BinnedCorr2.init, cfgC5]

/-- Both separations negative, ratio positive: radians, min_sep = max_sep = -1. -/
def cfgC6 : Config :=
  { bin_size := some 1, min_sep := some (-1), max_sep := some (-1),
    sep_units := some "radians" }

/-- C6 counterexample: a configuration with negative separations on which
construction succeeds with no error at all: the ratio of two negative
separations is positive, so the logarithm raises nothing and no validation
rejects the signs. -/
theorem negative_separations_accepted :
    BinnedCorr2.init cfgC6 none =
      Except.ok { config := cfgC6, logger := Logger.setup 0 none,
                  min_sep := -1, max_sep := -1, bin_size := 1, nbins := 0,
                  bin_slop := 1 } := by
  norm_num [BinnedCorr2.init, cfgC6, angle_units_radians]
  exact fun h => Option.noConfusion h

theorem gate_not_taken {cfg : Config} (hx : cfg.x_col = true ∨ cfg.sep_units ≠ none) :
    ¬(cfg.x_col = false ∧ cfg.sep_units = none) := by
  rcases hx with h | h <;> simp [h]

/-- C2: with min_sep, max_sep, bin_size present and nbins absent (positive unit
factor, separations and bin_size), construction succeeds, keeps the
user-supplied bin_size, converts the separations by the unit factor, and sets
nbins to the ceiling of ln(max_sep/min_sep)/bin_size computed on the converted
separations, never rounding down. -/
theorem derived_nbins_is_ceiling (cfg : Config) (lg : Option Logger) (u m M b : ℝ)
    (hx : cfg.x_col = true ∨ cfg.sep_units ≠ none)
    (hu : angle_units (cfg.sep_units.getD "arcsec") = some u) (hupos : 0 < u)
    (hnb : cfg.nbins = none) (hm : cfg.min_sep = some m) (hM : cfg.max_sep = some M)
    (hb : cfg.bin_size = some b) (hmpos : 0 < m) (hMpos : 0 < M) (hbpos : 0 < b) :
    ∃ s, BinnedCorr2.init cfg lg = Except.ok s ∧
      s.nbins = ⌈Real.log (M * u / (m * u)) / b⌉ ∧ s.bin_size = b ∧
      s.min_sep = m * u ∧ s.max_sep = M * u ∧
      Real.log (M * u / (m * u)) / b ≤ (s.nbins : ℝ) := by
  have hmu : 0 < m * u := mul_pos hmpos hupos
  have hMu : 0 < M * u := mul_pos hMpos hupos
  have hratio : 0 < M * u / (m * u) := div_pos hMu hmu
  rw [BinnedCorr2.init.eq_def]
  simp only [if_neg (gate_not_taken hx), hu, hnb, hm, hM, hb]
  rw [if_neg (ne_of_gt hmu), if_neg (not_le.mpr hratio), if_neg (ne_of_gt hbpos)]
  exact ⟨_, rfl, rfl, rfl, rfl, rfl, Int.le_ceil _⟩

/-- Exactly the triple min_sep, max_sep, bin_size, all 1, in radians. -/
def cfgC2w : Config :=
  { bin_size := some 1, min_sep := some 1, max_sep := some 1, sep_units := some "radians" }

/-- C2 witness at min_sep = max_sep = bin_size = 1 in radians. -/
theorem derived_nbins_is_ceiling_witness :
    ∃ s, BinnedCorr2.init cfgC2w none = Except.ok s ∧
      s.nbins = ⌈Real.log ((1 : ℝ) * 1 / ((1 : ℝ) * 1)) / 1⌉ ∧ s.bin_size = 1 ∧
      s.min_sep = (1 : ℝ) * 1 ∧ s.max_sep = (1 : ℝ) * 1 ∧
      Real.log ((1 : ℝ) * 1 / ((1 : ℝ) * 1)) / 1 ≤ (s.nbins : ℝ) :=
  derived_nbins_is_ceiling cfgC2w none 1 1 1 1 (Or.inr (by simp [cfgC2w]))
    (by simp [cfgC2w, angle_units_radians]) one_pos rfl rfl rfl rfl one_pos one_pos one_pos

/-- C3: with min_sep, max_sep, nbins present and bin_size absent (positive unit
factor and separations, positive nbins), construction succeeds, converts the
separations by the unit factor, uses nbins as given, and sets bin_size to
ln(max_sep/min_sep)/nbins on the converted separations, exactly. -/
theorem derived_bin_size_exact (cfg : Config) (lg : Option Logger) (u m M : ℝ) (n : ℤ)
    (hx : cfg.x_col = true ∨ cfg.sep_units ≠ none)
    (hu : angle_units (cfg.sep_units.getD "arcsec") = some u) (hupos : 0 < u)
    (hn : cfg.nbins = some n) (hb : cfg.bin_size = none)
    (hm : cfg.min_sep = some m) (hM : cfg.max_sep = some M)
    (hmpos : 0 < m) (hMpos : 0 < M) (hnpos : 0 < n) :
    ∃ s, BinnedCorr2.init cfg lg = Except.ok s ∧
      s.bin_size = Real.log (M * u / (m * u)) / (n : ℝ) ∧
      s.min_sep = m * u ∧ s.max_sep = M * u ∧ s.nbins = n := by
  have hmu : 0 < m * u := mul_pos hmpos hupos
  have hMu : 0 < M * u := mul_pos hMpos hupos
  have hratio : 0 < M * u / (m * u) := div_pos hMu hmu
  rw [BinnedCorr2.init.eq_def]
  simp only [if_neg (gate_not_taken hx), hu, hn, hb, hm, hM]
  rw [if_neg (ne_of_gt hmu), if_neg (not_le.mpr hratio), if_neg (ne_of_gt hnpos)]
  exact ⟨_, rfl, rfl, rfl, rfl, rfl⟩

/-- Exactly the triple min_sep, max_sep, nbins, in radians. -/
def cfgC3w : Config :=
  { nbins := some 2, min_sep := some 1, max_sep := some 1, sep_units := some "radians" }

/-- C3 witness at min_sep = max_sep = 1, nbins = 2 in radians. -/
theorem derived_bin_size_exact_witness :
    ∃ s, BinnedCorr2.init cfgC3w none = Except.ok s ∧
      s.bin_size = Real.log ((1 : ℝ) * 1 / ((1 : ℝ) * 1)) / ((2 : ℤ) : ℝ) ∧
      s.min_sep = (1 : ℝ) * 1 ∧ s.max_sep = (1 : ℝ) * 1 ∧ s.nbins = 2 :=
  derived_bin_size_exact cfgC3w none 1 1 1 2 (Or.inr (by simp [cfgC3w]))
    (by simp [cfgC3w, angle_units_radians]) one_pos rfl rfl rfl rfl one_pos one_pos
    (by norm_num)

/-- C5 amended: the sep_units configuration error is raised exactly when the
x_col key and the sep_units key are both absent from the merged configuration;
a y_col entry plays no role in the check. -/
theorem sep_units_error_iff (cfg : Config) (lg : Option Logger) :
    BinnedCorr2.init cfg lg =
        Except.error
          (PyError.attributeError "sep_units is required if not using x_col,y_col") ↔
      (cfg.x_col = false ∧ cfg.sep_units = none) := by
  obtain ⟨nb, bs, ms, Ms, su, xc, yc, slop, v, lf⟩ := cfg
  rw [BinnedCorr2.init.eq_def]
  constructor
  · intro h
    by_cases hgate : (xc = false ∧ (su : Option String) = none)
    · exact hgate
    · exfalso
      rw [if_neg hgate] at h
      rcases hau : angle_units (Option.getD su "arcsec") with _ | u <;>
        simp only [hau] at h
      · simp at h
      · rcases nb with _ | n <;> rcases bs with _ | b <;> rcases ms with _ | m <;>
          rcases Ms with _ | M <;> simp only [] at h <;>
          first
            | (split_ifs at h <;> simp at h)
            | (simp at h)
  · intro hgate
    rw [if_pos hgate]

/-- C6 amended: non-positive separations are not validated before the
logarithm; in the two logarithm-taking branches the failure surfaces from the
arithmetic itself: a zero converted min_sep raises ZeroDivisionError at the
ratio, and a non-positive ratio raises ValueError from `math.log` itself. -/
theorem nonpositive_separation_errors (cfg : Config) (lg : Option Logger) (u m M : ℝ)
    (hx : cfg.x_col = true ∨ cfg.sep_units ≠ none)
    (hu : angle_units (cfg.sep_units.getD "arcsec") = some u)
    (hm : cfg.min_sep = some m) (hM : cfg.max_sep = some M)
    (hbr : (cfg.nbins = none ∧ cfg.bin_size.isSome) ∨
      (cfg.nbins.isSome ∧ cfg.bin_size = none)) :
    (m * u = 0 → BinnedCorr2.init cfg lg = Except.error PyError.zeroDivisionError) ∧
    (m * u ≠ 0 → M * u / (m * u) ≤ 0 →
      BinnedCorr2.init cfg lg = Except.error (PyError.valueError "math domain error")) := by
  rcases hbr with ⟨h1, h2⟩ | ⟨h1, h2⟩
  · obtain ⟨b, hb⟩ := Option.isSome_iff_exists.mp h2
    constructor
    · intro h0
      rw [BinnedCorr2.init.eq_def]
      simp only [if_neg (gate_not_taken hx), hu, h1, hm, hM, hb]
      rw [if_pos h0]
    · intro h0 hle
      rw [BinnedCorr2.init.eq_def]
      simp only [if_neg (gate_not_taken hx), hu, h1, hm, hM, hb]
      rw [if_neg h0, if_pos hle]
  · obtain ⟨n, hn⟩ := Option.isSome_iff_exists.mp h1
    constructor
    · intro h0
      rw [BinnedCorr2.init.eq_def]
      simp only [if_neg (gate_not_taken hx), hu, hn, h2, hm, hM]
      rw [if_pos h0]
    · intro h0 hle
      rw [BinnedCorr2.init.eq_def]
      simp only [if_neg (gate_not_taken hx), hu, hn, h2, hm, hM]
      rw [if_neg h0, if_pos hle]

/-- A zero min_sep with max_sep = bin_size = 1, in radians. -/
def cfgC6w : Config :=
  { bin_size := some 1, min_sep := some 0, max_sep := some 1,
    sep_units := some "radians" }

/-- C6 amended witness: min_sep = 0 raises ZeroDivisionError at the ratio. -/
theorem nonpositive_separation_errors_witness :
    BinnedCorr2.init cfgC6w none = Except.error PyError.zeroDivisionError :=
  (nonpositive_separation_errors cfgC6w none 1 0 1 (Or.inr (by simp [cfgC6w]))
      (by simp [cfgC6w, angle_units_radians]) rfl rfl (Or.inl ⟨rfl, rfl⟩)).1
    (by norm_num)

/-- C1: under the unit precondition, construction raises the configuration
error kind (AttributeError) iff not exactly three of the four binning keys are
present: with fewer than three present a missing required parameter is named,
with all four present the over-constrained error is raised, and with exactly
three present this error kind is never raised. -/
theorem config_error_iff_not_exactly_three (cfg : Config) (lg : Option Logger)
    (h : unitOK cfg) :
    (isConfigError (BinnedCorr2.init cfg lg) ↔ cfg.presentCount ≠ 3) ∧
    (cfg.presentCount < 3 → ∃ k, cfg.missingKey k ∧
      BinnedCorr2.init cfg lg =
        Except.error (PyError.attributeError ("Missing required parameter " ++ k))) ∧
    (cfg.presentCount = 4 →
      BinnedCorr2.init cfg lg =
        Except.error (PyError.attributeError
          "Only 3 of min_sep, max_sep, bin_size, nbins are allowed.")) := by
  obtain ⟨hx, hres⟩ := h
  obtain ⟨u, hu⟩ := Option.isSome_iff_exists.mp hres
  obtain ⟨nb, bs, ms, Ms, su, xc, yc, slop, v, lf⟩ := cfg
  rw [BinnedCorr2.init.eq_def]
  simp only [if_neg (gate_not_taken hx), hu]
  rcases nb with _ | n
  · rcases bs with _ | b
    · rcases ms with _ | m
      · rcases Ms with _ | M
        · exact ⟨iff_of_true ⟨_, rfl⟩ (by simp [Config.presentCount]),
            fun _ => ⟨"max_sep", Or.inr (Or.inl ⟨rfl, rfl⟩), rfl⟩,
            fun hc => absurd hc (by simp [Config.presentCount])⟩
        · exact ⟨iff_of_true ⟨_, rfl⟩ (by simp [Config.presentCount]),
            fun _ => ⟨"min_sep", Or.inl ⟨rfl, rfl⟩, rfl⟩,
            fun hc => absurd hc (by simp [Config.presentCount])⟩
      · rcases Ms with _ | M
        · exact ⟨iff_of_true ⟨_, rfl⟩ (by simp [Config.presentCount]),
            fun _ => ⟨"max_sep", Or.inr (Or.inl ⟨rfl, rfl⟩), rfl⟩,
            fun hc => absurd hc (by simp [Config.presentCount])⟩
        · exact ⟨iff_of_true ⟨_, rfl⟩ (by simp [Config.presentCount]),
            fun _ => ⟨"bin_size", Or.inr (Or.inr ⟨rfl, rfl⟩), rfl⟩,
            fun hc => absurd hc (by simp [Config.presentCount])⟩
    · rcases ms with _ | m
      · rcases Ms with _ | M
        · exact ⟨iff_of_true ⟨_, rfl⟩ (by simp [Config.presentCount]),
            fun _ => ⟨"max_sep", Or.inr (Or.inl ⟨rfl, rfl⟩), rfl⟩,
            fun hc => absurd hc (by simp [Config.presentCount])⟩
        · exact ⟨iff_of_true ⟨_, rfl⟩ (by simp [Config.presentCount]),
            fun _ => ⟨"min_sep", Or.inl ⟨rfl, rfl⟩, rfl⟩,
            fun hc => absurd hc (by simp [Config.presentCount])⟩
      · rcases Ms with _ | M
        · exact ⟨iff_of_true ⟨_, rfl⟩ (by simp [Config.presentCount]),
            fun _ => ⟨"max_sep", Or.inr (Or.inl ⟨rfl, rfl⟩), rfl⟩,
            fun hc => absurd hc (by simp [Config.presentCount])⟩
        · refine ⟨iff_of_false ?_ (by simp [Config.presentCount]), fun hc => absurd hc (by simp [Config.presentCount]),
            fun hc => absurd hc (by simp [Config.presentCount])⟩
          rintro ⟨msg, hmsg⟩
          dsimp only at hmsg
          split_ifs at hmsg <;> simp at hmsg
  · rcases bs with _ | b
    · rcases ms with _ | m
      · rcases Ms with _ | M
        · exact ⟨iff_of_true ⟨_, rfl⟩ (by simp [Config.presentCount]),
            fun _ => ⟨"max_sep", Or.inr (Or.inl ⟨rfl, rfl⟩), rfl⟩,
            fun hc => absurd hc (by simp [Config.presentCount])⟩
        · exact ⟨iff_of_true ⟨_, rfl⟩ (by simp [Config.presentCount]),
            fun _ => ⟨"min_sep", Or.inl ⟨rfl, rfl⟩, rfl⟩,
            fun hc => absurd hc (by simp [Config.presentCount])⟩
      · rcases Ms with _ | M
        · exact ⟨iff_of_true ⟨_, rfl⟩ (by simp [Config.presentCount]),
            fun _ => ⟨"max_sep", Or.inr (Or.inl ⟨rfl, rfl⟩), rfl⟩,
            fun hc => absurd hc (by simp [Config.presentCount])⟩
        · refine ⟨iff_of_false ?_ (by simp [Config.presentCount]), fun hc => absurd hc (by simp [Config.presentCount]),
            fun hc => absurd hc (by simp [Config.presentCount])⟩
          rintro ⟨msg, hmsg⟩
          dsimp only at hmsg
          split_ifs at hmsg <;> simp at hmsg
    · rcases ms with _ | m
      · rcases Ms with _ | M
        · exact ⟨iff_of_true ⟨_, rfl⟩ (by simp [Config.presentCount]),
            fun _ => ⟨"min_sep", Or.inl ⟨rfl, rfl⟩, rfl⟩,
            fun hc => absurd hc (by simp [Config.presentCount])⟩
        · refine ⟨iff_of_false ?_ (by simp [Config.presentCount]), fun hc => absurd hc (by simp [Config.presentCount]),
            fun hc => absurd hc (by simp [Config.presentCount])⟩
          rintro ⟨msg, hmsg⟩
          simp at hmsg
      · rcases Ms with _ | M
        · refine ⟨iff_of_false ?_ (by simp [Config.presentCount]), fun hc => absurd hc (by simp [Config.presentCount]),
            fun hc => absurd hc (by simp [Config.presentCount])⟩
          rintro ⟨msg, hmsg⟩
          simp at hmsg
        · exact ⟨iff_of_true ⟨_, rfl⟩ (by simp [Config.presentCount]),
            fun hc => absurd hc (by simp [Config.presentCount]), fun _ => rfl⟩

/-- Only two of the four binning keys are present, in radians. -/
def cfgC1w : Config :=
  { min_sep := some 1, max_sep := some 1, sep_units := some "radians" }

/-- C1 witness: two binning keys present, the unit precondition satisfied. -/
theorem config_error_iff_not_exactly_three_witness :
    (isConfigError (BinnedCorr2.init cfgC1w none) ↔ cfgC1w.presentCount ≠ 3) ∧
    (cfgC1w.presentCount < 3 → ∃ k, cfgC1w.missingKey k ∧
      BinnedCorr2.init cfgC1w none =
        Except.error (PyError.attributeError ("Missing required parameter " ++ k))) ∧
    (cfgC1w.presentCount = 4 →
      BinnedCorr2.init cfgC1w none =
        Except.error (PyError.attributeError
          "Only 3 of min_sep, max_sep, bin_size, nbins are allowed.")) :=
  config_error_iff_not_exactly_three cfgC1w none
    ⟨Or.inr (by simp [cfgC1w]), by simp [cfgC1w, angle_units_radians]⟩

theorem derivedInit_ok (dt : Dtype) (cfg : Config) (lg : Option Logger) (s : Corr2)
    (h : derivedInit dt cfg lg = Except.ok s) :
    s.dtype = dt ∧ (s.data.length : ℤ) = s.nbins ∧ ∀ x ∈ s.data, x = 0 := by
  unfold derivedInit at h
  rcases hb : BinnedCorr2.init cfg none with _ | base <;> simp only [hb] at h
  · cases h
  · unfold npZeros at h
    split_ifs at h with hneg
    injection h with h
    subst h
    refine ⟨rfl, ?_, fun x hx => List.eq_of_mem_replicate hx⟩
    show ((List.replicate base.nbins.toNat (0 : ℂ)).length : ℤ) = base.nbins
    simp only [List.length_replicate]
    omega

/-- C9: a successfully constructed correlation object of each kind has a result
container of exactly nbins cells, all zero, and the dtype fixed by the kind:
complex for G2, NG, KG; real for N2, K2, NK. -/
theorem container_sized_zeroed_domain (cfg : Config) (lg : Option Logger) (s : Corr2) :
    (G2Correlation.init cfg lg = Except.ok s →
      s.dtype = Dtype.complex ∧ (s.data.length : ℤ) = s.nbins ∧ ∀ x ∈ s.data, x = 0) ∧
    (N2Correlation.init cfg lg = Except.ok s →
      s.dtype = Dtype.float ∧ (s.data.length : ℤ) = s.nbins ∧ ∀ x ∈ s.data, x = 0) ∧
    (K2Correlation.init cfg lg = Except.ok s →
      s.dtype = Dtype.float ∧ (s.data.length : ℤ) = s.nbins ∧ ∀ x ∈ s.data, x = 0) ∧
    (NGCorrelation.init cfg lg = Except.ok s →
      s.dtype = Dtype.complex ∧ (s.data.length : ℤ) = s.nbins ∧ ∀ x ∈ s.data, x = 0) ∧
    (NKCorrelation.init cfg lg = Except.ok s →
      s.dtype = Dtype.float ∧ (s.data.length : ℤ) = s.nbins ∧ ∀ x ∈ s.data, x = 0) ∧
    (KGCorrelation.init cfg lg = Except.ok s →
      s.dtype = Dtype.complex ∧ (s.data.length : ℤ) = s.nbins ∧ ∀ x ∈ s.data, x = 0) :=
  ⟨fun h => derivedInit_ok _ cfg lg s h, fun h => derivedInit_ok _ cfg lg s h,
    fun h => derivedInit_ok _ cfg lg s h, fun h => derivedInit_ok _ cfg lg s h,
    fun h => derivedInit_ok _ cfg lg s h, fun h => derivedInit_ok _ cfg lg s h⟩

/-- Exactly the triple min_sep, max_sep, nbins, in radians (a successful G2
construction). -/
def cfgW : Config :=
  { nbins := some 2, min_sep := some 1, max_sep := some 1, sep_units := some "radians" }

/-- The correlation state `G2Correlation.init cfgW none` produces. -/
noncomputable def sW : Corr2 :=
  { config := cfgW, logger := Logger.setup 0 none, min_sep := 1, max_sep := 1,
    bin_size := 0, nbins := 2, bin_slop := 1, dtype := Dtype.complex,
    data := List.replicate ((2 : ℤ)).toNat 0 }

theorem evalG2_cfgW : G2Correlation.init cfgW none = Except.ok sW := by
  rw [G2Correlation.init, derivedInit]
  have hbase : BinnedCorr2.init cfgW none =
      Except.ok { config := cfgW, logger := Logger.setup 0 none, min_sep := 1,
                  max_sep := 1, bin_size := 0, nbins := 2, bin_slop := 1 } := by
    norm_num [BinnedCorr2.init, cfgW, angle_units_radians]
    exact fun hc => Option.noConfusion hc
  rw [hbase]
  norm_num [npZeros, sW]

/-- C9 witness: the concrete successful G2 construction. -/
theorem container_sized_zeroed_domain_witness :
    sW.dtype = Dtype.complex ∧ (sW.data.length : ℤ) = sW.nbins ∧ ∀ x ∈ sW.data, x = 0 :=
  (container_sized_zeroed_domain cfgW none sW).1 evalG2_cfgW

theorem init_none_logger (cfg : Config) (b : BinnedCorr2)
    (h : BinnedCorr2.init cfg none = Except.ok b) :
    b.logger = Logger.setup (cfg.verbose.getD 0) cfg.log_file := by
  obtain ⟨nb, bs, ms, Ms, su, xc, yc, slop, v, lf⟩ := cfg
  rw [BinnedCorr2.init.eq_def] at h
  by_cases hgate : (xc = false ∧ (su : Option String) = none)
  · rw [if_pos hgate] at h
    cases h
  · rw [if_neg hgate] at h
    rcases hau : angle_units (Option.getD su "arcsec") with _ | u <;> rw [hau] at h
    · cases h
    · rcases nb with _ | n <;> rcases bs with _ | b2 <;> rcases ms with _ | m <;>
        rcases Ms with _ | M <;> dsimp only at h <;>
        first
          | exact Except.noConfusion h
          | (split_ifs at h <;>
              first
                | exact Except.noConfusion h
                | (injection h with h; subst h; rfl))

theorem derivedInit_logger (dt : Dtype) (cfg : Config) (lg : Option Logger) (s : Corr2)
    (h : derivedInit dt cfg lg = Except.ok s) :
    s.logger = Logger.setup (cfg.verbose.getD 0) cfg.log_file := by
  unfold derivedInit at h
  rcases hb : BinnedCorr2.init cfg none with _ | base <;> simp only [hb] at h
  · cases h
  · unfold npZeros at h
    split_ifs at h
    injection h with h
    subst h
    exact init_none_logger cfg base hb

/-- C10: every derived constructor ignores a caller-supplied logger: the result
equals the result with logger=None, and on success the stored logger is the one
freshly built from the configuration's verbose/log_file entries. -/
theorem caller_logger_ignored (cfg : Config) (lg : Logger) (s : Corr2) :
    (G2Correlation.init cfg (some lg) = G2Correlation.init cfg none ∧
      (G2Correlation.init cfg (some lg) = Except.ok s →
        s.logger = Logger.setup (cfg.verbose.getD 0) cfg.log_file)) ∧
    (N2Correlation.init cfg (some lg) = N2Correlation.init cfg none ∧
      (N2Correlation.init cfg (some lg) = Except.ok s →
        s.logger = Logger.setup (cfg.verbose.getD 0) cfg.log_file)) ∧
    (K2Correlation.init cfg (some lg) = K2Correlation.init cfg none ∧
      (K2Correlation.init cfg (some lg) = Except.ok s →
        s.logger = Logger.setup (cfg.verbose.getD 0) cfg.log_file)) ∧
    (NGCorrelation.init cfg (some lg) = NGCorrelation.init cfg none ∧
      (NGCorrelation.init cfg (some lg) = Except.ok s →
        s.logger = Logger.setup (cfg.verbose.getD 0) cfg.log_file)) ∧
    (NKCorrelation.init cfg (some lg) = NKCorrelation.init cfg none ∧
      (NKCorrelation.init cfg (some lg) = Except.ok s →
        s.logger = Logger.setup (cfg.verbose.getD 0) cfg.log_file)) ∧
    (KGCorrelation.init cfg (some lg) = KGCorrelation.init cfg none ∧
      (KGCorrelation.init cfg (some lg) = Except.ok s →
        s.logger = Logger.setup (cfg.verbose.getD 0) cfg.log_file)) :=
  ⟨⟨rfl, fun h => derivedInit_logger _ cfg (some lg) s h⟩,
    ⟨rfl, fun h => derivedInit_logger _ cfg (some lg) s h⟩,
    ⟨rfl, fun h => derivedInit_logger _ cfg (some lg) s h⟩,
    ⟨rfl, fun h => derivedInit_logger _ cfg (some lg) s h⟩,
    ⟨rfl, fun h => derivedInit_logger _ cfg (some lg) s h⟩,
    ⟨rfl, fun h => derivedInit_logger _ cfg (some lg) s h⟩⟩

/-- C10 witness: the concrete G2 construction with a caller-supplied logger. -/
theorem caller_logger_ignored_witness :
    G2Correlation.init cfgW (some (Logger.fromCaller 7)) = G2Correlation.init cfgW none ∧
    (G2Correlation.init cfgW (some (Logger.fromCaller 7)) = Except.ok sW →
      sW.logger = Logger.setup (cfgW.verbose.getD 0) cfgW.log_file) :=
  (caller_logger_ignored cfgW (Logger.fromCaller 7) sW).1

end TreeCorr
